import Mathlib

/-!
Verification development for the file-operation ledger
(`src/file_operation_logger.py`, class `FileOperationLogger`): a JSON-backed
audit log of file create/modify/delete operations with per-operation rollback,
bulk rollback, recent-operation listing and age-based retention pruning.

Modelling conventions (shallow embedding of the Python source):

* All machine state touched by the ledger is explicit in `LoggerState`:
  the in-memory record list (`self.operations`), the target filesystem
  (paths to file contents), the backup directory (`self.backups_dir`,
  backup-file names to content blobs with modification times), and the
  on-disk mirror of the record list (`operations.json`, written by
  `_save_log`).
* Directories are association lists from names to values; a real directory
  has each name at most once, and the insert/erase operations here keep
  lookups exact on arbitrary lists by removing every binding of the key.
* The clock (`datetime.now()`) is a natural number supplied by the
  environment to each call.  Its ISO-8601 rendering is modelled by the
  injective encoding `isoOfClock` with partial inverse `clockOfIso`, which
  stands for `datetime.fromisoformat`; a string outside the encoding's
  image parses to `none`, standing for the `ValueError` that
  `fromisoformat` raises on malformed input.  The two `datetime.now()`
  reads inside one `log_*` call (one for the id, one for the record's
  timestamp) are modelled as observing the same clock value.
* `os.getpid()` is a natural number parameter rendered with `toString`,
  and `str(Path(filepath).absolute())` is the identity: paths are opaque
  already-absolute strings.
* Filesystem calls that can raise `OSError` are driven by an explicit
  fault assignment `FsFaults`.  Python's `try`/`except` in `rollback` is
  modelled by propagating the failure to the handler, which returns
  `false` with whatever state mutations already happened.  In particular
  `open(filepath, "w")` truncates the file as soon as the open succeeds,
  so a restore whose `write` call then raises leaves the target file
  empty: the failure paths of the inverse action carry the filesystem as
  mutated up to the raise.
* The record fields `content_hash`, `old_content_hash`, `new_content_hash`,
  `size`, `old_size`, `new_size` are write-only in the source (display
  only, never read by any method), and are omitted from the record model.
-/

deriving instance DecidableEq for Except

namespace FileOpLog

/-- The `type` field of an operation record: `"create"`, `"modify"` or
`"delete"` in the Python dict. -/
inductive OpType where
  | create
  | modify
  | delete
deriving DecidableEq, Repr

/-- One entry of `self.operations`: the dict built by
`log_create`/`log_modify`/`log_delete` (display-only hash/size fields
omitted, see the module docstring). -/
structure Operation where
  id : String
  type : OpType
  filepath : String
  timestamp : String
  rolled_back : Bool
deriving DecidableEq, Repr

/-- A file in the backup directory: its content and its modification time
(`st_mtime`), set when the backup is written. -/
structure Blob where
  content : String
  mtime : Nat
deriving DecidableEq, Repr

/-- Look a name up in a directory (association list). -/
def lookupKey {α : Type} : List (String × α) → String → Option α
  | [], _ => none
  | (k, v) :: rest, key => if k == key then some v else lookupKey rest key

/-- Remove every binding of a name from a directory (a real directory holds
each name at most once; removing all bindings keeps lookups exact on
arbitrary lists). -/
def eraseKey {α : Type} (m : List (String × α)) (key : String) : List (String × α) :=
  m.filter (fun kv => kv.1 != key)

/-- Write a file into a directory, replacing any previous binding. -/
def insertKey {α : Type} (m : List (String × α)) (key : String) (v : α) : List (String × α) :=
  eraseKey m key ++ [(key, v)]

/-- The whole machine state the ledger touches. -/
structure LoggerState where
  operations : List Operation
  fs : List (String × String)
  backups : List (String × Blob)
  diskLog : List Operation
deriving DecidableEq, Repr

/-- A fresh logger over an empty filesystem: `__init__` with no existing
`operations.json` gives `self.operations = []`. -/
def emptyState : LoggerState :=
  { operations := [], fs := [], backups := [], diskLog := [] }

/-- `datetime.now().isoformat()`: the ISO-8601 rendering of clock value `t`,
modelled by an injective encoding (see the module docstring). -/
def isoOfClock (t : Nat) : String :=
  String.mk (List.replicate t '#')

/-- `datetime.fromisoformat`: partial inverse of `isoOfClock`; `none` stands
for the `ValueError` raised on a malformed timestamp string. -/
def clockOfIso (s : String) : Option Nat :=
  if s.data.all (fun c => c == '#') then some s.data.length else none

/-- The f-string `f"{kind}_{datetime.now().isoformat()}_{os.getpid()}"`
that builds an operation id. -/
def operationId (kind : String) (now pid : Nat) : String :=
  kind ++ "_" ++ isoOfClock now ++ "_" ++ toString pid

/-- `FileOperationLogger.log_create`: append a `create` record and store the
written content as the backup blob `{id}_content.txt`; `_save_log` mirrors
the record list to disk.  Returns the operation id. -/
def log_create (st : LoggerState) (now pid : Nat) (filepath content : String) :
    String × LoggerState :=
  let operation_id := operationId "create" now pid
  let operation : Operation :=
    { id := operation_id, type := OpType.create, filepath := filepath,
      timestamp := isoOfClock now, rolled_back := false }
  let operations := st.operations ++ [operation]
  (operation_id,
   { st with
     backups := insertKey st.backups (operation_id ++ "_content.txt") ⟨content, now⟩,
     operations := operations,
     diskLog := operations })

/-- `FileOperationLogger.log_modify`: append a `modify` record and store the
pre-modification content as the backup blob `{id}_backup.txt`. -/
def log_modify (st : LoggerState) (now pid : Nat)
    (filepath old_content new_content : String) : String × LoggerState :=
  let operation_id := operationId "modify" now pid
  let operation : Operation :=
    { id := operation_id, type := OpType.modify, filepath := filepath,
      timestamp := isoOfClock now, rolled_back := false }
  let operations := st.operations ++ [operation]
  (operation_id,
   { st with
     backups := insertKey st.backups (operation_id ++ "_backup.txt") ⟨old_content, now⟩,
     operations := operations,
     diskLog := operations })

/-- `FileOperationLogger.log_delete`: append a `delete` record and store the
pre-deletion content as the backup blob `{id}_deleted.txt`. -/
def log_delete (st : LoggerState) (now pid : Nat) (filepath content : String) :
    String × LoggerState :=
  let operation_id := operationId "delete" now pid
  let operation : Operation :=
    { id := operation_id, type := OpType.delete, filepath := filepath,
      timestamp := isoOfClock now, rolled_back := false }
  let operations := st.operations ++ [operation]
  (operation_id,
   { st with
     backups := insertKey st.backups (operation_id ++ "_deleted.txt") ⟨content, now⟩,
     operations := operations,
     diskLog := operations })

/-- Which filesystem calls inside `rollback` raise `OSError` in this run:
`filepath.unlink()`, the backup read, `open(filepath, "w")` itself, the
`f.write` after a successful (truncating) open, and the `_save_log`
rewrite of `operations.json`. -/
structure FsFaults where
  unlinkErr : Bool
  readErr : Bool
  openWriteErr : Bool
  writeErr : Bool
  saveErr : Bool
deriving DecidableEq, Repr

/-- All filesystem calls succeed. -/
def FsFaults.none : FsFaults :=
  { unlinkErr := false, readErr := false, openWriteErr := false, writeErr := false,
    saveErr := false }

/-- The inverse filesystem action of `rollback` (the body of the `try`
before the bookkeeping update).  `Except.ok fs'` is the new target
filesystem on success; `Except.error fsBad` means the raising call aborts
to the `except` handler with the filesystem as mutated up to the raise:
a failing `unlink`, backup read or `open(filepath, "w")` has mutated
nothing, but a `write` that raises after its open succeeded leaves the
target file truncated to empty. -/
def applyInverse (fs : List (String × String)) (backups : List (String × Blob))
    (faults : FsFaults) (operation : Operation) (operation_id : String) :
    Except (List (String × String)) (List (String × String)) :=
  match operation.type with
  | OpType.create =>
    if (lookupKey fs operation.filepath).isSome then
      if faults.unlinkErr then Except.error fs
      else Except.ok (eraseKey fs operation.filepath)
    else Except.ok fs
  | OpType.modify =>
    match lookupKey backups (operation_id ++ "_backup.txt") with
    | some blob =>
      if faults.readErr then Except.error fs
      else if faults.openWriteErr then Except.error fs
      else if faults.writeErr then Except.error (insertKey fs operation.filepath "")
      else Except.ok (insertKey fs operation.filepath blob.content)
    | none => Except.ok fs
  | OpType.delete =>
    match lookupKey backups (operation_id ++ "_deleted.txt") with
    | some blob =>
      if faults.readErr then Except.error fs
      else if faults.openWriteErr then Except.error fs
      else if faults.writeErr then Except.error (insertKey fs operation.filepath "")
      else Except.ok (insertKey fs operation.filepath blob.content)
    | none => Except.ok fs

/-- `operation["rolled_back"] = True`: mutate the record the lookup loop
found, i.e. the first record whose id matches. -/
def setRolledBackFirst : List Operation → String → List Operation
  | [], _ => []
  | op :: rest, operation_id =>
    if op.id == operation_id then { op with rolled_back := true } :: rest
    else op :: setRolledBackFirst rest operation_id

/-- `FileOperationLogger.rollback`: look the record up by id; fail with no
state change when it is absent or already rolled back; otherwise run the
inverse filesystem action, mark the record rolled back in memory, and
persist the record list.  A raising filesystem call lands in the `except`
handler, which returns `false` with the mutations made so far (in
particular, a `_save_log` failure happens after the in-memory flag was
already set). -/
def rollback (st : LoggerState) (faults : FsFaults) (operation_id : String) :
    Bool × LoggerState :=
  match st.operations.find? (fun op => op.id == operation_id) with
  | none => (false, st)
  | some operation =>
    if operation.rolled_back then (false, st)
    else
      match applyInverse st.fs st.backups faults operation operation_id with
      | Except.error fsBad => (false, { st with fs := fsBad })
      | Except.ok fs' =>
        let operations := setRolledBackFirst st.operations operation_id
        if faults.saveErr then
          (false, { st with fs := fs', operations := operations })
        else
          (true, { st with fs := fs', operations := operations, diskLog := operations })

/-- The loop of `rollback_all` over `reversed(self.operations)`: the
counter `i` is the number of records still to visit, so record `i - 1` of
the current state is visited next (record dicts are mutated in place but
the list itself never changes shape during the loop).  `Except.error`
stands for the uncaught `ValueError` of `datetime.fromisoformat` on a
malformed timestamp when `since` is given. -/
def rollbackAllGo (faults : FsFaults) (since : Option Nat) :
    Nat → LoggerState → Nat → Except Unit (Nat × LoggerState)
  | 0, st, rolled_back => Except.ok (rolled_back, st)
  | i + 1, st, rolled_back =>
    match st.operations[i]? with
    | Option.none => rollbackAllGo faults since i st rolled_back
    | Option.some operation =>
      if operation.rolled_back then rollbackAllGo faults since i st rolled_back
      else
        match since with
        | Option.some s =>
          match clockOfIso operation.timestamp with
          | Option.none => Except.error ()
          | Option.some t =>
            if t < s then rollbackAllGo faults since i st rolled_back
            else
              match rollback st faults operation.id with
              | (ok, st') =>
                rollbackAllGo faults since i st' (if ok then rolled_back + 1 else rolled_back)
        | Option.none =>
          match rollback st faults operation.id with
          | (ok, st') =>
            rollbackAllGo faults since i st' (if ok then rolled_back + 1 else rolled_back)

/-- `FileOperationLogger.rollback_all`: walk the records newest-first,
skip already-rolled-back records and (when `since` is given) records whose
parsed timestamp is older than `since`, roll back the rest by id, and
return how many rollbacks succeeded. -/
def rollback_all (st : LoggerState) (faults : FsFaults) (since : Option Nat) :
    Except Unit (Nat × LoggerState) :=
  rollbackAllGo faults since st.operations.length st 0

/-- `FileOperationLogger.get_recent_operations`: the Python slice
`self.operations[-limit:]`, which is the whole list when `limit == 0` and
the last `limit` entries otherwise. -/
def get_recent_operations (st : LoggerState) (limit : Nat) : List Operation :=
  if limit == 0 then st.operations
  else st.operations.drop (st.operations.length - limit)

/-- The list comprehension of `clear_old_logs`: keep the records whose
parsed timestamp is strictly newer than the cutoff; a malformed timestamp
raises out of `clear_old_logs` (there is no `try` around it). -/
def filterOpsByCutoff : List Operation → Int → Except Unit (List Operation)
  | [], _ => Except.ok []
  | op :: rest, cutoff =>
    match clockOfIso op.timestamp with
    | Option.none => Except.error ()
    | Option.some t =>
      match filterOpsByCutoff rest cutoff with
      | Except.error e => Except.error e
      | Except.ok keep => Except.ok (if (t : Int) > cutoff then op :: keep else keep)

/-- `FileOperationLogger.clear_old_logs`: drop the records at or before the
cutoff `now - days·86400`, persist the filtered list, and delete every
backup file whose `st_mtime` is strictly older than the cutoff. -/
def clear_old_logs (st : LoggerState) (now : Nat) (days : Nat) :
    Except Unit LoggerState :=
  let cutoff : Int := (now : Int) - ((days * 24 * 60 * 60 : Nat) : Int)
  match filterOpsByCutoff st.operations cutoff with
  | Except.error e => Except.error e
  | Except.ok operations =>
    Except.ok
      { st with
        operations := operations,
        diskLog := operations,
        backups := st.backups.filter (fun kv => !(decide ((kv.2.mtime : Int) < cutoff))) }

/-- A caller-side file write: the ledger only records operations, the
collaborating file-action source performs them (spec §6). -/
def writeFile (st : LoggerState) (filepath content : String) : LoggerState :=
  { st with fs := insertKey st.fs filepath content }

/-- The retention predicate of `clear_old_logs` on one record: its parsed
timestamp is strictly newer than the cutoff. -/
def keepOp (cutoff : Int) (op : Operation) : Bool :=
  match clockOfIso op.timestamp with
  | Option.some t => decide ((t : Int) > cutoff)
  | Option.none => false

theorem lookupKey_append {α : Type} (a b : List (String × α)) (key : String) :
    lookupKey (a ++ b) key = (lookupKey a key).or (lookupKey b key) := by
  induction a with
  | nil => rfl
  | cons kv rest ih =>
    by_cases h : (kv.1 == key) = true
    · simp [lookupKey, h, Option.or]
    · simp [lookupKey, h, ih]

theorem lookupKey_eraseKey_self {α : Type} (m : List (String × α)) (key : String) :
    lookupKey (eraseKey m key) key = Option.none := by
  induction m with
  | nil => rfl
  | cons kv rest ih =>
    by_cases h : kv.1 = key
    · simpa [eraseKey, List.filter_cons, h] using ih
    · simpa [eraseKey, List.filter_cons, h, lookupKey] using ih

theorem lookupKey_insertKey_self {α : Type} (m : List (String × α)) (key : String) (v : α) :
    lookupKey (insertKey m key v) key = Option.some v := by
  simp [insertKey, lookupKey_append, lookupKey_eraseKey_self, lookupKey]

theorem find?_setRolledBackFirst (l : List Operation) (oid : String) (op : Operation)
    (h : l.find? (fun o => o.id == oid) = Option.some op) :
    (setRolledBackFirst l oid).find? (fun o => o.id == oid) =
      Option.some { op with rolled_back := true } := by
  induction l with
  | nil => simp [List.find?] at h
  | cons a rest ih =>
    cases ha : a.id == oid with
    | true =>
      simp only [List.find?_cons, ha] at h
      injection h with h
      subst h
      simp [setRolledBackFirst, List.find?_cons, ha]
    | false =>
      simp only [List.find?_cons, ha] at h
      simp only [setRolledBackFirst, ha, List.find?_cons, Bool.false_eq_true, if_false]
      exact ih h

theorem timestamp_of_mem_setRolledBackFirst (l : List Operation) (oid : String)
    (op' : Operation) (h : op' ∈ setRolledBackFirst l oid) :
    ∃ op ∈ l, op'.timestamp = op.timestamp := by
  induction l with
  | nil => simp [setRolledBackFirst] at h
  | cons a rest ih =>
    simp only [setRolledBackFirst] at h
    by_cases ha : (a.id == oid) = true
    · rw [if_pos ha] at h
      rcases List.mem_cons.mp h with h | h
      · exact ⟨a, List.mem_cons_self a rest, by rw [h]⟩
      · exact ⟨op', List.mem_cons_of_mem a h, rfl⟩
    · rw [if_neg ha] at h
      rcases List.mem_cons.mp h with h | h
      · exact ⟨a, List.mem_cons_self a rest, by rw [h]⟩
      · obtain ⟨op, hm, ht⟩ := ih h
        exact ⟨op, List.mem_cons_of_mem a hm, ht⟩

theorem rollback_not_found (st : LoggerState) (faults : FsFaults) (oid : String)
    (h : st.operations.find? (fun op => op.id == oid) = Option.none) :
    rollback st faults oid = (false, st) := by
  simp [rollback, h]

theorem rollback_already_rolled_back (st : LoggerState) (faults : FsFaults) (oid : String)
    (op : Operation) (h : st.operations.find? (fun o => o.id == oid) = Option.some op)
    (hrb : op.rolled_back = true) :
    rollback st faults oid = (false, st) := by
  simp [rollback, h, hrb]

theorem rollback_inverse_fail (st : LoggerState) (faults : FsFaults) (oid : String)
    (op : Operation) (fsBad : List (String × String))
    (h : st.operations.find? (fun o => o.id == oid) = Option.some op)
    (hrb : op.rolled_back = false)
    (ha : applyInverse st.fs st.backups faults op oid = Except.error fsBad) :
    rollback st faults oid = (false, { st with fs := fsBad }) := by
  simp [rollback, h, hrb, ha]

theorem rollback_save_fail (st : LoggerState) (faults : FsFaults) (oid : String)
    (op : Operation) (fs' : List (String × String))
    (h : st.operations.find? (fun o => o.id == oid) = Option.some op)
    (hrb : op.rolled_back = false)
    (ha : applyInverse st.fs st.backups faults op oid = Except.ok fs')
    (hs : faults.saveErr = true) :
    rollback st faults oid =
      (false, { st with fs := fs', operations := setRolledBackFirst st.operations oid }) := by
  simp [rollback, h, hrb, ha, hs]

theorem rollback_success (st : LoggerState) (faults : FsFaults) (oid : String)
    (op : Operation) (fs' : List (String × String))
    (h : st.operations.find? (fun o => o.id == oid) = Option.some op)
    (hrb : op.rolled_back = false)
    (ha : applyInverse st.fs st.backups faults op oid = Except.ok fs')
    (hs : faults.saveErr = false) :
    rollback st faults oid =
      (true,
        { st with
          fs := fs',
          operations := setRolledBackFirst st.operations oid,
          diskLog := setRolledBackFirst st.operations oid }) := by
  simp [rollback, h, hrb, ha, hs]

theorem rollback_false_bookkeeping (st : LoggerState) (faults : FsFaults) (oid : String)
    (hs : faults.saveErr = false) (h : (rollback st faults oid).1 = false) :
    (rollback st faults oid).2.operations = st.operations ∧
    (rollback st faults oid).2.diskLog = st.diskLog ∧
    (rollback st faults oid).2.backups = st.backups := by
  cases hf : st.operations.find? (fun op => op.id == oid) with
  | none => rw [rollback_not_found st faults oid hf]; exact ⟨rfl, rfl, rfl⟩
  | some op =>
    cases hrb : op.rolled_back with
    | true =>
      rw [rollback_already_rolled_back st faults oid op hf hrb]
      exact ⟨rfl, rfl, rfl⟩
    | false =>
      cases ha : applyInverse st.fs st.backups faults op oid with
      | error fsBad =>
        rw [rollback_inverse_fail st faults oid op fsBad hf hrb ha]
        exact ⟨rfl, rfl, rfl⟩
      | ok fs' =>
        rw [rollback_success st faults oid op fs' hf hrb ha hs] at h
        simp at h

theorem rollback_true_inv (st : LoggerState) (faults : FsFaults) (oid : String)
    (st₁ : LoggerState) (h : rollback st faults oid = (true, st₁)) :
    ∃ op, st.operations.find? (fun o => o.id == oid) = Option.some op ∧
      op.rolled_back = false ∧ st₁.operations = setRolledBackFirst st.operations oid := by
  cases hf : st.operations.find? (fun op => op.id == oid) with
  | none =>
    rw [rollback_not_found st faults oid hf] at h
    simp at h
  | some op =>
    refine ⟨op, rfl, ?_⟩
    cases hrb : op.rolled_back with
    | true =>
      rw [rollback_already_rolled_back st faults oid op hf hrb] at h
      simp at h
    | false =>
      refine ⟨rfl, ?_⟩
      cases ha : applyInverse st.fs st.backups faults op oid with
      | error fsBad =>
        rw [rollback_inverse_fail st faults oid op fsBad hf hrb ha] at h
        simp at h
      | ok fs' =>
        cases hs : faults.saveErr with
        | true =>
          rw [rollback_save_fail st faults oid op fs' hf hrb ha hs] at h
          simp at h
        | false =>
          rw [rollback_success st faults oid op fs' hf hrb ha hs] at h
          rw [← (Prod.mk.injEq _ _ _ _).mp h |>.2]

theorem rollback_operations_cases (st : LoggerState) (faults : FsFaults) (oid : String) :
    (rollback st faults oid).2.operations = st.operations ∨
    (rollback st faults oid).2.operations = setRolledBackFirst st.operations oid := by
  cases hf : st.operations.find? (fun op => op.id == oid) with
  | none => rw [rollback_not_found st faults oid hf]; left; rfl
  | some op =>
    cases hrb : op.rolled_back with
    | true => rw [rollback_already_rolled_back st faults oid op hf hrb]; left; rfl
    | false =>
      cases ha : applyInverse st.fs st.backups faults op oid with
      | error fsBad =>
        rw [rollback_inverse_fail st faults oid op fsBad hf hrb ha]; left; rfl
      | ok fs' =>
        cases hs : faults.saveErr with
        | true => rw [rollback_save_fail st faults oid op fs' hf hrb ha hs]; right; rfl
        | false => rw [rollback_success st faults oid op fs' hf hrb ha hs]; right; rfl

/-- One call to a `log_*` method, with its arguments. -/
inductive LogCall where
  | createCall (filepath content : String)
  | modifyCall (filepath old_content new_content : String)
  | deleteCall (filepath content : String)
deriving DecidableEq, Repr

/-- The operation-kind string a call contributes to its id. -/
def LogCall.kind : LogCall → String
  | LogCall.createCall _ _ => "create"
  | LogCall.modifyCall _ _ _ => "modify"
  | LogCall.deleteCall _ _ => "delete"

/-- Dispatch one log call at a given clock value. -/
def doCall (st : LoggerState) (now pid : Nat) : LogCall → String × LoggerState
  | LogCall.createCall p c => log_create st now pid p c
  | LogCall.modifyCall p oc nc => log_modify st now pid p oc nc
  | LogCall.deleteCall p c => log_delete st now pid p c

/-- A sequence of log calls, each with the clock value it observes. -/
def runCalls (st : LoggerState) (pid : Nat) : List (Nat × LogCall) → LoggerState
  | [] => st
  | (t, c) :: rest => runCalls (doCall st t pid c).2 pid rest

theorem doCall_operations_ids (st : LoggerState) (now pid : Nat) (c : LogCall) :
    (doCall st now pid c).2.operations.map (fun op => op.id) =
      st.operations.map (fun op => op.id) ++ [operationId c.kind now pid] := by
  cases c <;> simp [doCall, log_create, log_modify, log_delete, LogCall.kind]

theorem runCalls_ids (pid : Nat) (calls : List (Nat × LogCall)) (st : LoggerState) :
    (runCalls st pid calls).operations.map (fun op => op.id) =
      st.operations.map (fun op => op.id) ++
        calls.map (fun tc => operationId tc.2.kind tc.1 pid) := by
  induction calls generalizing st with
  | nil => simp [runCalls]
  | cons tc rest ih =>
    cases tc with
    | mk t c =>
      rw [runCalls, ih, doCall_operations_ids]
      simp

theorem isoOfClock_inj (t₁ t₂ : Nat) (h : isoOfClock t₁ = isoOfClock t₂) : t₁ = t₂ := by
  have hd : (List.replicate t₁ '#').length = (List.replicate t₂ '#').length :=
    congrArg (fun s => s.data.length) h
  simpa using hd

theorem middle_block_inj {α : Type} (a₁ a₂ x₁ x₂ u t : List α)
    (hl : a₁.length = a₂.length)
    (h : a₁ ++ (u ++ (x₁ ++ (u ++ t))) = a₂ ++ (u ++ (x₂ ++ (u ++ t)))) : x₁ = x₂ := by
  rw [← List.append_assoc a₁, ← List.append_assoc a₂] at h
  have h₁ := List.append_inj h (by simp [hl])
  have h₂ := List.append_inj' h₁.2 rfl
  exact h₂.1

theorem operationId_inj_time (k₁ k₂ : String) (hk : k₁.length = k₂.length)
    (t₁ t₂ pid : Nat) (h : operationId k₁ t₁ pid = operationId k₂ t₂ pid) : t₁ = t₂ := by
  have hd := congrArg String.data h
  simp only [operationId, String.data_append, List.append_assoc] at hd
  exact isoOfClock_inj t₁ t₂ (String.ext (middle_block_inj _ _ _ _ _ _ hk hd))

theorem mem_of_getElem_opt {α : Type} (l : List α) (i : Nat) (a : α)
    (h : l[i]? = Option.some a) : a ∈ l := by
  obtain ⟨hi, rfl⟩ := List.getElem?_eq_some.mp h
  exact List.getElem_mem hi

theorem rollbackAllGo_all_rolled_back (faults : FsFaults) (since : Option Nat) :
    ∀ (i : Nat) (st : LoggerState) (acc : Nat),
      (∀ op ∈ st.operations, op.rolled_back = true) →
      rollbackAllGo faults since i st acc = Except.ok (acc, st) := by
  intro i
  induction i with
  | zero => intro st acc _; rfl
  | succ i ih =>
    intro st acc h
    cases hg : st.operations[i]? with
    | none => simp only [rollbackAllGo, hg]; exact ih st acc h
    | some op =>
      have hrb : op.rolled_back = true := h op (mem_of_getElem_opt _ _ _ hg)
      simp only [rollbackAllGo, hg, hrb, if_true]
      exact ih st acc h

theorem rollbackAllGo_all_older (faults : FsFaults) (s : Nat) :
    ∀ (i : Nat) (st : LoggerState) (acc : Nat),
      (∀ op ∈ st.operations, op.rolled_back = false →
        ∃ t, clockOfIso op.timestamp = Option.some t ∧ t < s) →
      rollbackAllGo faults (Option.some s) i st acc = Except.ok (acc, st) := by
  intro i
  induction i with
  | zero => intro st acc _; rfl
  | succ i ih =>
    intro st acc h
    cases hg : st.operations[i]? with
    | none => simp only [rollbackAllGo, hg]; exact ih st acc h
    | some op =>
      cases hrb : op.rolled_back with
      | true =>
        simp only [rollbackAllGo, hg, hrb, if_true]
        exact ih st acc h
      | false =>
        obtain ⟨t, ht, hlt⟩ := h op (mem_of_getElem_opt _ _ _ hg) hrb
        simp only [rollbackAllGo, hg, hrb, ht, hlt, if_true, Bool.false_eq_true, if_false]
        exact ih st acc h

theorem parse_closed_rollback (st : LoggerState) (faults : FsFaults) (oid : String)
    (h : ∀ op ∈ st.operations, (clockOfIso op.timestamp).isSome = true) :
    ∀ op ∈ (rollback st faults oid).2.operations, (clockOfIso op.timestamp).isSome = true := by
  intro op' hop'
  rcases rollback_operations_cases st faults oid with hc | hc
  · rw [hc] at hop'
    exact h op' hop'
  · rw [hc] at hop'
    obtain ⟨op, hm, ht⟩ := timestamp_of_mem_setRolledBackFirst _ _ _ hop'
    rw [ht]
    exact h op hm

theorem rollbackAllGo_ok (faults : FsFaults) (since : Option Nat) :
    ∀ (i : Nat) (st : LoggerState) (acc : Nat),
      (since = Option.none ∨ ∀ op ∈ st.operations, (clockOfIso op.timestamp).isSome = true) →
      ∃ r, rollbackAllGo faults since i st acc = Except.ok r := by
  intro i
  induction i with
  | zero => intro st acc _; exact ⟨(acc, st), rfl⟩
  | succ i ih =>
    intro st acc h
    cases hg : st.operations[i]? with
    | none => simp only [rollbackAllGo, hg]; exact ih st acc h
    | some op =>
      cases hrb : op.rolled_back with
      | true =>
        simp only [rollbackAllGo, hg, hrb, if_true]
        exact ih st acc h
      | false =>
        have hstep : ∀ st' : LoggerState,
            (since = Option.none ∨
              ∀ o ∈ st.operations, (clockOfIso o.timestamp).isSome = true) →
            (since = Option.none ∨
              ∀ o ∈ (rollback st faults op.id).2.operations,
                (clockOfIso o.timestamp).isSome = true) := by
          intro _ hh
          rcases hh with hh | hh
          · exact Or.inl hh
          · exact Or.inr (parse_closed_rollback st faults op.id hh)
        cases since with
        | none =>
          simp only [rollbackAllGo, hg, hrb, Bool.false_eq_true, if_false]
          rcases hr : rollback st faults op.id with ⟨ok, st'⟩
          have h' := hstep st' h
          rw [hr] at h'
          exact ih st' (if ok then acc + 1 else acc) h'
        | some s =>
          rcases h with h | h
          · exact absurd h (by simp)
          have hsome : (clockOfIso op.timestamp).isSome = true :=
            h op (mem_of_getElem_opt _ _ _ hg)
          obtain ⟨t, ht⟩ := Option.isSome_iff_exists.mp hsome
          cases hlt : decide (t < s) with
          | true =>
            simp only [rollbackAllGo, hg, hrb, ht, Bool.false_eq_true, if_false,
              of_decide_eq_true hlt, if_true]
            exact ih st acc (Or.inr h)
          | false =>
            simp only [rollbackAllGo, hg, hrb, ht, Bool.false_eq_true, if_false,
              of_decide_eq_false hlt]
            rcases hr : rollback st faults op.id with ⟨ok, st'⟩
            have h' := hstep st' (Or.inr h)
            rw [hr] at h'
            exact ih st' (if ok then acc + 1 else acc) h'

theorem filterOpsByCutoff_parse_closed (cutoff : Int) :
    ∀ l : List Operation,
      (∀ op ∈ l, (clockOfIso op.timestamp).isSome = true) →
      filterOpsByCutoff l cutoff = Except.ok (l.filter (keepOp cutoff)) := by
  intro l
  induction l with
  | nil => intro _; rfl
  | cons op rest ih =>
    intro h
    obtain ⟨t, ht⟩ := Option.isSome_iff_exists.mp (h op (List.mem_cons_self op rest))
    have hrest := ih (fun o hm => h o (List.mem_cons_of_mem op hm))
    simp only [filterOpsByCutoff, ht, hrest, List.filter_cons, keepOp]
    cases hgt : decide (t > cutoff) with
    | true => simp [of_decide_eq_true hgt, ht]
    | false => simp [ht, hgt, of_decide_eq_false hgt]

/-- C1: when a filesystem error strikes the inverse action and
`_save_log` is healthy, `rollback` returns `false` and the ledger's
bookkeeping — the record list with its `rolled_back` flags, the on-disk
ledger mirror, and the backup blobs — is unchanged, so a retry is safe
(the target file itself may still have been truncated by the failed
restore write); but when the failure is in `_save_log`, the call returns
`false` while the record's in-memory `rolled_back` flag has already been
set `true`, so a retry fails the already-rolled-back guard. -/
theorem C1_rollback_error_atomicity :
    (∀ (st : LoggerState) (faults : FsFaults) (oid : String),
      faults.saveErr = false → (rollback st faults oid).1 = false →
      (rollback st faults oid).2.operations = st.operations ∧
      (rollback st faults oid).2.diskLog = st.diskLog ∧
      (rollback st faults oid).2.backups = st.backups)
    ∧
    (∀ (st : LoggerState) (faults : FsFaults) (oid : String) (op : Operation)
      (fs' : List (String × String)),
      st.operations.find? (fun o => o.id == oid) = Option.some op →
      op.rolled_back = false →
      applyInverse st.fs st.backups faults op oid = Except.ok fs' →
      faults.saveErr = true →
      (rollback st faults oid).1 = false ∧
      ((rollback st faults oid).2.operations.find? (fun o => o.id == oid)).map
        (fun o => o.rolled_back) = Option.some true) := by
  constructor
  · exact rollback_false_bookkeeping
  · intro st faults oid op fs' hf hrb ha hs
    rw [rollback_save_fail st faults oid op fs' hf hrb ha hs]
    refine ⟨rfl, ?_⟩
    show ((setRolledBackFirst st.operations oid).find? (fun o => o.id == oid)).map
      (fun o => o.rolled_back) = Option.some true
    rw [find?_setRolledBackFirst _ _ _ hf]
    rfl

/-- Witness for C1 at concrete inputs: a modify rollback whose restore
write raises (after the truncating open) returns false with all
bookkeeping unchanged, and a ledger-persist failure after a modify
rollback returns false with the in-memory flag already true. -/
theorem C1_witness :
    ((rollback (log_modify emptyState 1 1 "p" "OLD" "NEW").2
        { unlinkErr := false, readErr := false, openWriteErr := false, writeErr := true,
          saveErr := false }
        (operationId "modify" 1 1)).2.operations =
      (log_modify emptyState 1 1 "p" "OLD" "NEW").2.operations ∧
      (rollback (log_modify emptyState 1 1 "p" "OLD" "NEW").2
        { unlinkErr := false, readErr := false, openWriteErr := false, writeErr := true,
          saveErr := false }
        (operationId "modify" 1 1)).2.diskLog =
      (log_modify emptyState 1 1 "p" "OLD" "NEW").2.diskLog ∧
      (rollback (log_modify emptyState 1 1 "p" "OLD" "NEW").2
        { unlinkErr := false, readErr := false, openWriteErr := false, writeErr := true,
          saveErr := false }
        (operationId "modify" 1 1)).2.backups =
      (log_modify emptyState 1 1 "p" "OLD" "NEW").2.backups) ∧
    ((rollback (log_modify emptyState 1 1 "p" "OLD" "NEW").2
        { unlinkErr := false, readErr := false, openWriteErr := false, writeErr := false,
          saveErr := true }
        (operationId "modify" 1 1)).1 = false ∧
      ((rollback (log_modify emptyState 1 1 "p" "OLD" "NEW").2
          { unlinkErr := false, readErr := false, openWriteErr := false, writeErr := false,
            saveErr := true }
          (operationId "modify" 1 1)).2.operations.find?
            (fun o => o.id == operationId "modify" 1 1)).map
        (fun o => o.rolled_back) = Option.some true) :=
  ⟨C1_rollback_error_atomicity.1 (log_modify emptyState 1 1 "p" "OLD" "NEW").2
     { unlinkErr := false, readErr := false, openWriteErr := false, writeErr := true,
       saveErr := false }
     (operationId "modify" 1 1) (by decide) (by decide),
   C1_rollback_error_atomicity.2 (log_modify emptyState 1 1 "p" "OLD" "NEW").2
     { unlinkErr := false, readErr := false, openWriteErr := false, writeErr := false,
       saveErr := true }
     (operationId "modify" 1 1)
     { id := operationId "modify" 1 1, type := OpType.modify, filepath := "p",
       timestamp := isoOfClock 1, rolled_back := false }
     [("p", "OLD")] (by decide) (by decide) (by decide) (by decide)⟩

/-- C1 as stated is false at a concrete input: with a filesystem error
injected in `_save_log` (persisting the updated ledger), `rollback` of a
just-logged modify returns `false` yet the record's `rolled_back` flag is
`true` afterwards, so a retry fails the already-rolled-back guard. -/
theorem C1_counterexample :
    (rollback (log_modify emptyState 1 1 "p" "OLD" "NEW").2
      { unlinkErr := false, readErr := false, openWriteErr := false, writeErr := false,
        saveErr := true }
      (log_modify emptyState 1 1 "p" "OLD" "NEW").1).1 = false ∧
    ((rollback (log_modify emptyState 1 1 "p" "OLD" "NEW").2
        { unlinkErr := false, readErr := false, openWriteErr := false, writeErr := false,
          saveErr := true }
        (log_modify emptyState 1 1 "p" "OLD" "NEW").1).2.operations.find?
          (fun o => o.id == (log_modify emptyState 1 1 "p" "OLD" "NEW").1)).map
      (fun o => o.rolled_back) = Option.some true ∧
    (rollback
      (rollback (log_modify emptyState 1 1 "p" "OLD" "NEW").2
        { unlinkErr := false, readErr := false, openWriteErr := false, writeErr := false,
          saveErr := true }
        (log_modify emptyState 1 1 "p" "OLD" "NEW").1).2
      FsFaults.none (log_modify emptyState 1 1 "p" "OLD" "NEW").1).1 = false := by
  decide

theorem find?_fresh_append (base : List Operation) (op : Operation)
    (hfresh : ∀ o ∈ base, ¬ o.id = op.id) :
    (base ++ [op]).find? (fun o => o.id == op.id) = Option.some op := by
  rw [List.find?_append, List.find?_eq_none.mpr (fun x hx hb => hfresh x hx (eq_of_beq hb))]
  simp [List.find?_cons]

theorem rollback_of_fresh_append (st₁ : LoggerState) (base : List Operation)
    (op : Operation) (faults : FsFaults) (fs' : List (String × String))
    (hops : st₁.operations = base ++ [op])
    (hfresh : ∀ o ∈ base, ¬ o.id = op.id)
    (hrb : op.rolled_back = false)
    (ha : applyInverse st₁.fs st₁.backups faults op op.id = Except.ok fs')
    (hs : faults.saveErr = false) :
    rollback st₁ faults op.id =
      (true,
        { st₁ with
          fs := fs',
          operations := setRolledBackFirst st₁.operations op.id,
          diskLog := setRolledBackFirst st₁.operations op.id }) ∧
    ((setRolledBackFirst st₁.operations op.id).find? (fun o => o.id == op.id)).map
      (fun o => o.rolled_back) = Option.some true := by
  have hfind : st₁.operations.find? (fun o => o.id == op.id) = Option.some op := by
    rw [hops]
    exact find?_fresh_append base op hfresh
  refine ⟨rollback_success st₁ faults op.id op fs' hfind hrb ha hs, ?_⟩
  rw [find?_setRolledBackFirst _ _ _ hfind]
  rfl

/-- C2: a modify (resp. delete) logged with a fresh id and then rolled
back returns `true`, restores (resp. recreates) the target path with
exactly the old (resp. deleted) content, and marks the record rolled
back. -/
theorem C2_modify_delete_round_trip :
    (∀ (st : LoggerState) (now pid : Nat) (p oldC newC : String),
      (∀ op ∈ st.operations, ¬ op.id = operationId "modify" now pid) →
      (rollback (log_modify st now pid p oldC newC).2 FsFaults.none
          (log_modify st now pid p oldC newC).1).1 = true ∧
      lookupKey (rollback (log_modify st now pid p oldC newC).2 FsFaults.none
          (log_modify st now pid p oldC newC).1).2.fs p = Option.some oldC ∧
      ((rollback (log_modify st now pid p oldC newC).2 FsFaults.none
          (log_modify st now pid p oldC newC).1).2.operations.find?
            (fun o => o.id == (log_modify st now pid p oldC newC).1)).map
        (fun o => o.rolled_back) = Option.some true)
    ∧
    (∀ (st : LoggerState) (now pid : Nat) (p c : String),
      (∀ op ∈ st.operations, ¬ op.id = operationId "delete" now pid) →
      (rollback (log_delete st now pid p c).2 FsFaults.none
          (log_delete st now pid p c).1).1 = true ∧
      lookupKey (rollback (log_delete st now pid p c).2 FsFaults.none
          (log_delete st now pid p c).1).2.fs p = Option.some c ∧
      ((rollback (log_delete st now pid p c).2 FsFaults.none
          (log_delete st now pid p c).1).2.operations.find?
            (fun o => o.id == (log_delete st now pid p c).1)).map
        (fun o => o.rolled_back) = Option.some true) := by
  constructor
  · intro st now pid p oldC newC hfresh
    obtain ⟨hroll, hflag⟩ :=
      rollback_of_fresh_append (log_modify st now pid p oldC newC).2 st.operations
        ({ id := operationId "modify" now pid, type := OpType.modify, filepath := p,
           timestamp := isoOfClock now, rolled_back := false } : Operation)
        FsFaults.none
        (insertKey (log_modify st now pid p oldC newC).2.fs p oldC)
        rfl hfresh rfl
        (by simp [log_modify, applyInverse, lookupKey_insertKey_self, FsFaults.none]) rfl
    refine ⟨congrArg Prod.fst hroll, ?_, ?_⟩
    · exact (congrArg (fun r : Bool × LoggerState => lookupKey r.2.fs p) hroll).trans
        (lookupKey_insertKey_self _ _ _)
    · exact (congrArg
        (fun r : Bool × LoggerState =>
          (r.2.operations.find?
            (fun o => o.id == (log_modify st now pid p oldC newC).1)).map
            (fun o => o.rolled_back)) hroll).trans hflag
  · intro st now pid p c hfresh
    obtain ⟨hroll, hflag⟩ :=
      rollback_of_fresh_append (log_delete st now pid p c).2 st.operations
        ({ id := operationId "delete" now pid, type := OpType.delete, filepath := p,
           timestamp := isoOfClock now, rolled_back := false } : Operation)
        FsFaults.none
        (insertKey (log_delete st now pid p c).2.fs p c)
        rfl hfresh rfl
        (by simp [log_delete, applyInverse, lookupKey_insertKey_self, FsFaults.none]) rfl
    refine ⟨congrArg Prod.fst hroll, ?_, ?_⟩
    · exact (congrArg (fun r : Bool × LoggerState => lookupKey r.2.fs p) hroll).trans
        (lookupKey_insertKey_self _ _ _)
    · exact (congrArg
        (fun r : Bool × LoggerState =>
          (r.2.operations.find?
            (fun o => o.id == (log_delete st now pid p c).1)).map
            (fun o => o.rolled_back)) hroll).trans hflag

/-- Witness for C2 at concrete inputs. -/
theorem C2_witness :
    ((rollback (log_modify emptyState 1 1 "p" "OLD" "NEW").2 FsFaults.none
        (log_modify emptyState 1 1 "p" "OLD" "NEW").1).1 = true ∧
      lookupKey (rollback (log_modify emptyState 1 1 "p" "OLD" "NEW").2 FsFaults.none
        (log_modify emptyState 1 1 "p" "OLD" "NEW").1).2.fs "p" = Option.some "OLD" ∧
      ((rollback (log_modify emptyState 1 1 "p" "OLD" "NEW").2 FsFaults.none
          (log_modify emptyState 1 1 "p" "OLD" "NEW").1).2.operations.find?
            (fun o => o.id == (log_modify emptyState 1 1 "p" "OLD" "NEW").1)).map
        (fun o => o.rolled_back) = Option.some true) ∧
    ((rollback (log_delete emptyState 2 1 "q" "GONE").2 FsFaults.none
        (log_delete emptyState 2 1 "q" "GONE").1).1 = true ∧
      lookupKey (rollback (log_delete emptyState 2 1 "q" "GONE").2 FsFaults.none
        (log_delete emptyState 2 1 "q" "GONE").1).2.fs "q" = Option.some "GONE" ∧
      ((rollback (log_delete emptyState 2 1 "q" "GONE").2 FsFaults.none
          (log_delete emptyState 2 1 "q" "GONE").1).2.operations.find?
            (fun o => o.id == (log_delete emptyState 2 1 "q" "GONE").1)).map
        (fun o => o.rolled_back) = Option.some true) :=
  ⟨C2_modify_delete_round_trip.1 emptyState 1 1 "p" "OLD" "NEW" (by decide),
   C2_modify_delete_round_trip.2 emptyState 2 1 "q" "GONE" (by decide)⟩

/-- C3: a create logged with a fresh id and then rolled back returns
`true`, leaves the path absent from the filesystem (deleting it if
present, a no-op if already absent), and marks the record rolled back. -/
theorem C3_create_round_trip :
    ∀ (st : LoggerState) (now pid : Nat) (p c : String),
      (∀ op ∈ st.operations, ¬ op.id = operationId "create" now pid) →
      (rollback (log_create st now pid p c).2 FsFaults.none
          (log_create st now pid p c).1).1 = true ∧
      lookupKey (rollback (log_create st now pid p c).2 FsFaults.none
          (log_create st now pid p c).1).2.fs p = Option.none ∧
      ((rollback (log_create st now pid p c).2 FsFaults.none
          (log_create st now pid p c).1).2.operations.find?
            (fun o => o.id == (log_create st now pid p c).1)).map
        (fun o => o.rolled_back) = Option.some true := by
  intro st now pid p c hfresh
  by_cases hp : (lookupKey st.fs p).isSome = true
  · obtain ⟨hroll, hflag⟩ :=
      rollback_of_fresh_append (log_create st now pid p c).2 st.operations
        ({ id := operationId "create" now pid, type := OpType.create, filepath := p,
           timestamp := isoOfClock now, rolled_back := false } : Operation)
        FsFaults.none (eraseKey st.fs p)
        rfl hfresh rfl
        (by simp [log_create, applyInverse, FsFaults.none, hp]) rfl
    refine ⟨congrArg Prod.fst hroll, ?_, ?_⟩
    · exact (congrArg (fun r : Bool × LoggerState => lookupKey r.2.fs p) hroll).trans
        (lookupKey_eraseKey_self _ _)
    · exact (congrArg
        (fun r : Bool × LoggerState =>
          (r.2.operations.find?
            (fun o => o.id == (log_create st now pid p c).1)).map
            (fun o => o.rolled_back)) hroll).trans hflag
  · obtain ⟨hroll, hflag⟩ :=
      rollback_of_fresh_append (log_create st now pid p c).2 st.operations
        ({ id := operationId "create" now pid, type := OpType.create, filepath := p,
           timestamp := isoOfClock now, rolled_back := false } : Operation)
        FsFaults.none st.fs
        rfl hfresh rfl
        (by simp [log_create, applyInverse, FsFaults.none, hp]) rfl
    refine ⟨congrArg Prod.fst hroll, ?_, ?_⟩
    · exact (congrArg (fun r : Bool × LoggerState => lookupKey r.2.fs p) hroll).trans
        (Option.not_isSome_iff_eq_none.mp hp)
    · exact (congrArg
        (fun r : Bool × LoggerState =>
          (r.2.operations.find?
            (fun o => o.id == (log_create st now pid p c).1)).map
            (fun o => o.rolled_back)) hroll).trans hflag

/-- Witness for C3 at a concrete input where the created file is present. -/
theorem C3_witness :
    (rollback (log_create (writeFile emptyState "p" "c") 1 1 "p" "c").2 FsFaults.none
        (log_create (writeFile emptyState "p" "c") 1 1 "p" "c").1).1 = true ∧
    lookupKey (rollback (log_create (writeFile emptyState "p" "c") 1 1 "p" "c").2 FsFaults.none
        (log_create (writeFile emptyState "p" "c") 1 1 "p" "c").1).2.fs "p" = Option.none ∧
    ((rollback (log_create (writeFile emptyState "p" "c") 1 1 "p" "c").2 FsFaults.none
        (log_create (writeFile emptyState "p" "c") 1 1 "p" "c").1).2.operations.find?
          (fun o => o.id == (log_create (writeFile emptyState "p" "c") 1 1 "p" "c").1)).map
      (fun o => o.rolled_back) = Option.some true :=
  C3_create_round_trip (writeFile emptyState "p" "c") 1 1 "p" "c" (by decide)

/-- C4: `rollback_all` walks the ledger newest-first — in the concrete
create-then-modify scenario it reverses the modify before the create,
leaving the file absent and reporting 2 successes — and it skips
already-rolled-back records, and records older than `since` when `since`
is given, returning the count of successful reversals. -/
theorem C4_rollback_all_newest_first :
    ((rollback_all
        (log_modify
          (writeFile (log_create (writeFile emptyState "f" "c1") 1 1 "f" "c1").2 "f" "c2")
          2 1 "f" "c1" "c2").2
        FsFaults.none Option.none).map
      (fun r => (r.1, lookupKey r.2.fs "f", r.2.operations.all (fun op => op.rolled_back))) =
      Except.ok (2, Option.none, true))
    ∧
    (∀ (st : LoggerState) (faults : FsFaults) (since : Option Nat),
      (∀ op ∈ st.operations, op.rolled_back = true) →
      rollback_all st faults since = Except.ok (0, st))
    ∧
    (∀ (st : LoggerState) (faults : FsFaults) (s : Nat),
      (∀ op ∈ st.operations, op.rolled_back = false →
        ∃ t, clockOfIso op.timestamp = Option.some t ∧ t < s) →
      rollback_all st faults (Option.some s) = Except.ok (0, st)) := by
  refine ⟨by decide, ?_, ?_⟩
  · intro st faults since h
    exact rollbackAllGo_all_rolled_back faults since st.operations.length st 0 h
  · intro st faults s h
    exact rollbackAllGo_all_older faults s st.operations.length st 0 h

/-- Witness for C4's skip clauses at concrete inputs. -/
theorem C4_witness :
    rollback_all
      { operations := [{ id := "a", type := OpType.create, filepath := "p",
                         timestamp := isoOfClock 1, rolled_back := true }],
        fs := [], backups := [], diskLog := [] } FsFaults.none Option.none =
      Except.ok (0,
        { operations := [{ id := "a", type := OpType.create, filepath := "p",
                           timestamp := isoOfClock 1, rolled_back := true }],
          fs := [], backups := [], diskLog := [] }) ∧
    rollback_all
      { operations := [{ id := "b", type := OpType.create, filepath := "p",
                         timestamp := isoOfClock 1, rolled_back := false }],
        fs := [], backups := [], diskLog := [] } FsFaults.none (Option.some 5) =
      Except.ok (0,
        { operations := [{ id := "b", type := OpType.create, filepath := "p",
                           timestamp := isoOfClock 1, rolled_back := false }],
          fs := [], backups := [], diskLog := [] }) :=
  ⟨C4_rollback_all_newest_first.2.1 _ FsFaults.none Option.none (by decide),
   C4_rollback_all_newest_first.2.2 _ FsFaults.none 5 (by
     intro op hm hrb
     have : op = { id := "b", type := OpType.create, filepath := "p",
                   timestamp := isoOfClock 1, rolled_back := false } := by
       simpa using hm
     subst this
     exact ⟨1, by decide⟩)⟩

/-- C5: `rollback` fails softly with no state change on an unknown id and
on an already-rolled-back record, and a second rollback of the same id
returns `false` while leaving the state from the first rollback intact. -/
theorem C5_rollback_soft_fail :
    (∀ (st : LoggerState) (faults : FsFaults) (oid : String),
      st.operations.find? (fun op => op.id == oid) = Option.none →
      rollback st faults oid = (false, st))
    ∧
    (∀ (st : LoggerState) (faults : FsFaults) (oid : String) (op : Operation),
      st.operations.find? (fun o => o.id == oid) = Option.some op →
      op.rolled_back = true →
      rollback st faults oid = (false, st))
    ∧
    (∀ (st st₁ : LoggerState) (oid : String),
      rollback st FsFaults.none oid = (true, st₁) →
      rollback st₁ FsFaults.none oid = (false, st₁)) := by
  refine ⟨rollback_not_found, rollback_already_rolled_back, ?_⟩
  intro st st₁ oid h
  obtain ⟨op, hf, hrb, hops⟩ := rollback_true_inv st FsFaults.none oid st₁ h
  have hfind : st₁.operations.find? (fun o => o.id == oid) =
      Option.some { op with rolled_back := true } := by
    rw [hops]
    exact find?_setRolledBackFirst _ _ _ hf
  exact rollback_already_rolled_back st₁ FsFaults.none oid _ hfind rfl

/-- Witness for C5 at concrete inputs: unknown id, already-rolled-back
record, and a double rollback. -/
theorem C5_witness :
    rollback emptyState FsFaults.none "nonexistent" = (false, emptyState) ∧
    rollback
      { operations := [{ id := "r", type := OpType.create, filepath := "p",
                         timestamp := isoOfClock 1, rolled_back := true }],
        fs := [], backups := [], diskLog := [] } FsFaults.none "r" =
      (false,
        { operations := [{ id := "r", type := OpType.create, filepath := "p",
                           timestamp := isoOfClock 1, rolled_back := true }],
          fs := [], backups := [], diskLog := [] }) ∧
    rollback
      (rollback (log_create (writeFile emptyState "p" "c") 1 1 "p" "c").2 FsFaults.none
        (log_create (writeFile emptyState "p" "c") 1 1 "p" "c").1).2
      FsFaults.none (log_create (writeFile emptyState "p" "c") 1 1 "p" "c").1 =
      (false,
        (rollback (log_create (writeFile emptyState "p" "c") 1 1 "p" "c").2 FsFaults.none
          (log_create (writeFile emptyState "p" "c") 1 1 "p" "c").1).2) :=
  ⟨C5_rollback_soft_fail.1 emptyState FsFaults.none "nonexistent" (by decide),
   C5_rollback_soft_fail.2.1 _ FsFaults.none "r"
     { id := "r", type := OpType.create, filepath := "p",
       timestamp := isoOfClock 1, rolled_back := true } (by decide) rfl,
   C5_rollback_soft_fail.2.2 (log_create (writeFile emptyState "p" "c") 1 1 "p" "c").2
     (rollback (log_create (writeFile emptyState "p" "c") 1 1 "p" "c").2 FsFaults.none
       (log_create (writeFile emptyState "p" "c") 1 1 "p" "c").1).2
     (log_create (writeFile emptyState "p" "c") 1 1 "p" "c").1 (by decide)⟩

/-- C6: for limits of at least 1, `get_recent_operations` returns the last
`min(N, limit)` records in insertion order; for limit 0 the Python slice
`operations[-0:]` returns the whole list. -/
theorem C6_recent_operations :
    (∀ (st : LoggerState) (k : Nat), 1 ≤ k →
      get_recent_operations st k = st.operations.drop (st.operations.length - k) ∧
      (get_recent_operations st k).length = min st.operations.length k)
    ∧
    (∀ st : LoggerState, get_recent_operations st 0 = st.operations) := by
  constructor
  · intro st k hk
    have hk0 : (k == 0) = false := by
      simp only [beq_eq_false_iff_ne]
      omega
    refine ⟨by simp [get_recent_operations, hk0], ?_⟩
    simp only [get_recent_operations, hk0, Bool.false_eq_true, if_false, List.length_drop]
    omega
  · intro st
    rfl

/-- Witness for C6 at a concrete input with two records and limit 1. -/
theorem C6_witness :
    get_recent_operations (log_create (log_create emptyState 1 1 "a" "x").2 2 1 "b" "y").2 1 =
      (log_create (log_create emptyState 1 1 "a" "x").2 2 1 "b" "y").2.operations.drop
        ((log_create (log_create emptyState 1 1 "a" "x").2 2 1 "b" "y").2.operations.length - 1) ∧
    (get_recent_operations (log_create (log_create emptyState 1 1 "a" "x").2 2 1 "b" "y").2
        1).length =
      min (log_create (log_create emptyState 1 1 "a" "x").2 2 1 "b" "y").2.operations.length 1 :=
  C6_recent_operations.1 (log_create (log_create emptyState 1 1 "a" "x").2 2 1 "b" "y").2 1
    (by decide)

/-- C6 as stated is false at a concrete input: after one `record_*` call,
`get_recent_operations` with limit 0 returns 1 record, not
`min(1, 0) = 0` records. -/
theorem C6_counterexample :
    (get_recent_operations (log_create emptyState 1 1 "p" "c").2 0).length = 1 ∧
    min (log_create emptyState 1 1 "p" "c").2.operations.length 0 = 0 := by
  decide

/-- C7: retention pruning keeps exactly the records whose parsed timestamp
is strictly newer than the cutoff (so a record timestamped exactly at the
cutoff is removed), and keeps exactly the backup files whose mtime is not
strictly older than the cutoff (so a blob at the cutoff survives),
regardless of rolled_back state. -/
theorem C7_clear_old_logs_filters :
    ∀ (st : LoggerState) (now days : Nat),
      (∀ op ∈ st.operations, (clockOfIso op.timestamp).isSome = true) →
      clear_old_logs st now days =
        Except.ok
          { st with
            operations :=
              st.operations.filter
                (keepOp ((now : Int) - ((days * 24 * 60 * 60 : Nat) : Int))),
            diskLog :=
              st.operations.filter
                (keepOp ((now : Int) - ((days * 24 * 60 * 60 : Nat) : Int))),
            backups :=
              st.backups.filter
                (fun kv =>
                  !(decide ((kv.2.mtime : Int) <
                    ((now : Int) - ((days * 24 * 60 * 60 : Nat) : Int))))) } := by
  intro st now days h
  simp only [clear_old_logs]
  rw [filterOpsByCutoff_parse_closed _ st.operations h]

/-- Witness for C7 at a concrete input (retention window of 0 days, clock
at 5): one old record and one new record with their blobs; the old pair
is pruned, the new pair survives. -/
theorem C7_witness :
    clear_old_logs
      { operations :=
          [{ id := "o", type := OpType.create, filepath := "p",
             timestamp := isoOfClock 2, rolled_back := true },
           { id := "n", type := OpType.create, filepath := "q",
             timestamp := isoOfClock 9, rolled_back := false }],
        fs := [],
        backups := [("o_content.txt", { content := "a", mtime := 2 }),
                    ("n_content.txt", { content := "b", mtime := 9 })],
        diskLog := [] } 5 0 =
      Except.ok
        { operations :=
            ([{ id := "o", type := OpType.create, filepath := "p",
                timestamp := isoOfClock 2, rolled_back := true },
              { id := "n", type := OpType.create, filepath := "q",
                timestamp := isoOfClock 9, rolled_back := false }] :
              List Operation).filter
              (keepOp ((5 : Int) - ((0 * 24 * 60 * 60 : Nat) : Int))),
          fs := [],
          backups :=
            ([("o_content.txt", { content := "a", mtime := 2 }),
              ("n_content.txt", { content := "b", mtime := 9 })] :
              List (String × Blob)).filter
              (fun kv =>
                !(decide ((kv.2.mtime : Int) <
                  ((5 : Int) - ((0 * 24 * 60 * 60 : Nat) : Int))))),
          diskLog :=
            ([{ id := "o", type := OpType.create, filepath := "p",
                timestamp := isoOfClock 2, rolled_back := true },
              { id := "n", type := OpType.create, filepath := "q",
                timestamp := isoOfClock 9, rolled_back := false }] :
              List Operation).filter
              (keepOp ((5 : Int) - ((0 * 24 * 60 * 60 : Nat) : Int))) } :=
  C7_clear_old_logs_filters
    { operations :=
        [{ id := "o", type := OpType.create, filepath := "p",
           timestamp := isoOfClock 2, rolled_back := true },
         { id := "n", type := OpType.create, filepath := "q",
           timestamp := isoOfClock 9, rolled_back := false }],
      fs := [],
      backups := [("o_content.txt", { content := "a", mtime := 2 }),
                  ("n_content.txt", { content := "b", mtime := 9 })],
      diskLog := [] } 5 0 (by decide)

/-- C7 as stated is false at a concrete input: a record whose timestamp
equals the cutoff (so is not older than it) is removed anyway, while its
backup blob (mtime equal to the cutoff, so not strictly older) is kept —
the record and its blob are not pruned together. -/
theorem C7_counterexample :
    (clear_old_logs
        { operations := [{ id := "i", type := OpType.create, filepath := "p",
                           timestamp := isoOfClock 0, rolled_back := false }],
          fs := [],
          backups := [("i_content.txt", { content := "c", mtime := 0 })],
          diskLog := [{ id := "i", type := OpType.create, filepath := "p",
                        timestamp := isoOfClock 0, rolled_back := false }] } 604800 7).map
      (fun st' => (st'.operations, st'.backups)) =
      Except.ok ([], [("i_content.txt", { content := "c", mtime := 0 })]) := by
  decide

/-- C8: `rollback` is total (its failures are the boolean return), and
`rollback_all` raises nothing whenever `since` is omitted or every
record's stored timestamp parses; only a malformed timestamp reached with
`since` given escapes as an exception. -/
theorem C8_no_uncaught_raise :
    ∀ (st : LoggerState) (faults : FsFaults) (since : Option Nat),
      (since = Option.none ∨ ∀ op ∈ st.operations, (clockOfIso op.timestamp).isSome = true) →
      ∃ r, rollback_all st faults since = Except.ok r := by
  intro st faults since h
  exact rollbackAllGo_ok faults since st.operations.length st 0 h

/-- Witness for C8: a run with `since` omitted and a run with `since`
given over a well-formed ledger both return normally. -/
theorem C8_witness :
    (∃ r, rollback_all emptyState FsFaults.none Option.none = Except.ok r) ∧
    (∃ r, rollback_all
        { operations := [{ id := "w", type := OpType.create, filepath := "p",
                           timestamp := isoOfClock 4, rolled_back := false }],
          fs := [], backups := [], diskLog := [] }
        FsFaults.none (Option.some 3) = Except.ok r) :=
  ⟨C8_no_uncaught_raise emptyState FsFaults.none Option.none (Or.inl rfl),
   C8_no_uncaught_raise
     { operations := [{ id := "w", type := OpType.create, filepath := "p",
                        timestamp := isoOfClock 4, rolled_back := false }],
       fs := [], backups := [], diskLog := [] }
     FsFaults.none (Option.some 3) (Or.inr (by decide))⟩

/-- C8 as stated is false at a concrete input: with `since` given and a
record whose stored timestamp string is malformed, the unprotected
`datetime.fromisoformat` call in `rollback_all` raises, propagating an
exception to the caller instead of a count. -/
theorem C8_counterexample :
    rollback_all
      { operations := [{ id := "x", type := OpType.create, filepath := "p",
                         timestamp := "garbage", rolled_back := false }],
        fs := [], backups := [],
        diskLog := [{ id := "x", type := OpType.create, filepath := "p",
                      timestamp := "garbage", rolled_back := false }] }
      FsFaults.none (Option.some 0) = Except.error () := by
  decide

/-- C9: within one process, if the clock strictly increases between
successive `log_*` calls, then starting from an empty ledger every
record's id is distinct from every other record's id. -/
theorem C9_id_uniqueness :
    ∀ (pid : Nat) (calls : List (Nat × LogCall)),
      List.Pairwise (fun a b => a.1 < b.1) calls →
      ((runCalls emptyState pid calls).operations.map (fun op => op.id)).Nodup := by
  intro pid calls h
  rw [runCalls_ids]
  have hnil : emptyState.operations.map (fun op => op.id) = [] := rfl
  rw [hnil, List.nil_append]
  refine List.Pairwise.map _ ?_ h
  intro a b hab heq
  exact absurd
    (operationId_inj_time a.2.kind b.2.kind (by cases a.2 <;> cases b.2 <;> rfl)
      a.1 b.1 pid heq)
    (Nat.ne_of_lt hab)

/-- Witness for C9 at a concrete strictly-clocked run. -/
theorem C9_witness :
    ((runCalls emptyState 1
        [(1, LogCall.createCall "a" "x"), (2, LogCall.deleteCall "b" "y")]).operations.map
      (fun op => op.id)).Nodup :=
  C9_id_uniqueness 1 [(1, LogCall.createCall "a" "x"), (2, LogCall.deleteCall "b" "y")]
    (by decide)

/-- C9 as stated is false at a concrete input: two `log_create` calls that
observe the same clock value in the same process produce identical ids,
so the ledger holds two records with equal ids. -/
theorem C9_counterexample :
    (log_create emptyState 5 1 "a" "x").1 =
      (log_create (log_create emptyState 5 1 "a" "x").2 5 1 "b" "y").1 ∧
    (log_create (log_create emptyState 5 1 "a" "x").2 5 1 "b" "y").2.operations.map
      (fun op => op.id) =
      [(log_create emptyState 5 1 "a" "x").1, (log_create emptyState 5 1 "a" "x").1] := by
  decide

/-- C10: when the backup blob of a modify or delete record is absent,
`rollback` writes nothing to the target path, still marks the record
rolled back, persists the ledger, and returns `true`. -/
theorem C10_missing_backup_reports_success :
    ∀ (st : LoggerState) (oid : String) (op : Operation),
      st.operations.find? (fun o => o.id == oid) = Option.some op →
      op.rolled_back = false →
      (op.type = OpType.modify ∨ op.type = OpType.delete) →
      lookupKey st.backups (oid ++ "_backup.txt") = Option.none →
      lookupKey st.backups (oid ++ "_deleted.txt") = Option.none →
      rollback st FsFaults.none oid =
        (true,
          { st with
            operations := setRolledBackFirst st.operations oid,
            diskLog := setRolledBackFirst st.operations oid }) ∧
      ((setRolledBackFirst st.operations oid).find? (fun o => o.id == oid)).map
        (fun o => o.rolled_back) = Option.some true := by
  intro st oid op hf hrb hty hb1 hb2
  have ha : applyInverse st.fs st.backups FsFaults.none op oid = Except.ok st.fs := by
    rcases hty with hty | hty <;> simp [applyInverse, hty, hb1, hb2]
  constructor
  · exact rollback_success st FsFaults.none oid op st.fs hf hrb ha rfl
  · rw [find?_setRolledBackFirst _ _ _ hf]
    rfl

/-- Witness for C10 at a concrete modify record with no backup blob. -/
theorem C10_witness :
    rollback
      { operations := [{ id := "m1", type := OpType.modify, filepath := "p",
                         timestamp := isoOfClock 0, rolled_back := false }],
        fs := [("p", "cur")], backups := [], diskLog := [] } FsFaults.none "m1" =
      (true,
        { operations :=
            setRolledBackFirst
              [{ id := "m1", type := OpType.modify, filepath := "p",
                 timestamp := isoOfClock 0, rolled_back := false }] "m1",
          fs := [("p", "cur")], backups := [],
          diskLog :=
            setRolledBackFirst
              [{ id := "m1", type := OpType.modify, filepath := "p",
                 timestamp := isoOfClock 0, rolled_back := false }] "m1" }) ∧
    ((setRolledBackFirst
        [{ id := "m1", type := OpType.modify, filepath := "p",
           timestamp := isoOfClock 0, rolled_back := false }] "m1").find?
      (fun o => o.id == "m1")).map (fun o => o.rolled_back) = Option.some true :=
  C10_missing_backup_reports_success
    { operations := [{ id := "m1", type := OpType.modify, filepath := "p",
                       timestamp := isoOfClock 0, rolled_back := false }],
      fs := [("p", "cur")], backups := [], diskLog := [] } "m1"
    { id := "m1", type := OpType.modify, filepath := "p",
      timestamp := isoOfClock 0, rolled_back := false }
    (by decide) rfl (Or.inl rfl) (by decide) (by decide)

end FileOpLog
